import Mathlib

/-!
Verification of the subtitle/danmu pipeline against its specification.

The Python sources are shallowly embedded as executable Lean functions:
strings become `List Char`, regex patterns become explicit character
scanners with the same matching semantics, dictionaries become
association lists, and exceptions become `Option`/`Except` values.
Loops whose termination is not structural use an explicit fuel argument
(always instantiated with a bound that provably suffices), so that every
definition reduces inside the kernel.
-/

namespace SubtitleSpec

/-! ## Character and string helpers (Python semantics) -/

/-- Python regex `\s` on the ASCII range (the filenames and titles the
pipeline handles use ASCII whitespace). -/
def isPyWs (c : Char) : Bool :=
  c == ' ' || c == '\t' || c == '\n' || c == '\r' || c == '\x0b' || c == '\x0c'

/-- Python regex `\w` (word character): ASCII alphanumerics, underscore,
and non-ASCII letters such as CJK characters (which Python's Unicode
`\w` accepts). -/
def isWordChar (c : Char) : Bool :=
  c.isAlphanum || c == '_' || decide (0x80 ≤ c.toNat)

/-- Maximal leading run of ASCII digits, with the remainder. -/
def takeDigits : List Char → List Char × List Char
  | [] => ([], [])
  | c :: cs =>
    if c.isDigit then
      let p := takeDigits cs
      (c :: p.1, p.2)
    else ([], c :: cs)

/-- Numeric value of a digit run (`int(...)` on the captured group). -/
def digitsVal (ds : List Char) : Nat :=
  ds.foldl (fun n c => n * 10 + (c.toNat - 48)) 0

/-- Decimal digits of a natural number (`str(n)` / `f"{n}"`). -/
def natDigits (n : Nat) : List Char := (Nat.toDigits 10 n)

/-- Python `f"{n:02d}"`: zero-pad to width two. -/
def fmt02 (n : Nat) : List Char :=
  let ds := natDigits n
  if ds.length < 2 then '0' :: ds else ds

/-- Whether `pat` is a prefix of `l` (character-exact). -/
def prefixSeq : List Char → List Char → Bool
  | [], _ => true
  | _ :: _, [] => false
  | p :: ps, c :: cs => p == c && prefixSeq ps cs

/-- Whether `pat` occurs as a contiguous subsequence of `l`
(Python `pat in s`). -/
def containsSeq (pat : List Char) : List Char → Bool
  | [] => prefixSeq pat []
  | c :: cs => prefixSeq pat (c :: cs) || containsSeq pat cs

/-- Case-insensitive prefix test; `pat` is given in lowercase. -/
def ciPrefixSeq : List Char → List Char → Bool
  | [], _ => true
  | _ :: _, [] => false
  | p :: ps, c :: cs => p == c.toLower && ciPrefixSeq ps cs

/-- Python `s.lower()` (ASCII case fold, the identity on CJK). -/
def lowerSeq (cs : List Char) : List Char := cs.map Char.toLower

/-- Python `a in b or b in a` after lowering, the title-match test. -/
def mutualSubstring (a b : List Char) : Bool :=
  containsSeq (lowerSeq a) (lowerSeq b) || containsSeq (lowerSeq b) (lowerSeq a)

/-- The apostrophe character (U+0027), built by code point. -/
def aposChar : Char := Char.ofNat 39

/-- The apostrophe as a one-character string. -/
def aposS : String := String.mk [aposChar]

/-! ## Scanners for the episode regex patterns of video_parser.py

Each scanner tries to match its pattern at the head of the list and
returns the captured value together with the input remaining after the
matched span, mirroring the corresponding Python regex exactly on the
character classes it uses. -/

/-- Pattern `[Ss](\d+)[Ee](\d+)`. -/
def matchSxxExx (cs : List Char) : Option ((Nat × Nat) × List Char) :=
  match cs with
  | c :: rest =>
    if c == 'S' || c == 's' then
      match takeDigits rest with
      | ([], _) => none
      | (ds1, rest1) =>
        match rest1 with
        | e :: rest2 =>
          if e == 'E' || e == 'e' then
            match takeDigits rest2 with
            | ([], _) => none
            | (ds2, rest3) => some ((digitsVal ds1, digitsVal ds2), rest3)
          else none
        | [] => none
    else none
  | [] => none

/-- Pattern `第\s*(\d+)\s*集`. -/
def matchDiJi (cs : List Char) : Option (Nat × List Char) :=
  match cs with
  | c :: rest =>
    if c == '第' then
      match takeDigits (rest.dropWhile isPyWs) with
      | ([], _) => none
      | (ds, rest1) =>
        match rest1.dropWhile isPyWs with
        | j :: rest2 => if j == '集' then some (digitsVal ds, rest2) else none
        | [] => none
    else none
  | [] => none

/-- Pattern `[Ee][Pp]\s*(\d+)`. -/
def matchEPn (cs : List Char) : Option (Nat × List Char) :=
  match cs with
  | e :: p :: rest =>
    if (e == 'E' || e == 'e') && (p == 'P' || p == 'p') then
      match takeDigits (rest.dropWhile isPyWs) with
      | ([], _) => none
      | (ds, rest1) => some (digitsVal ds, rest1)
    else none
  | _ => none

/-- Pattern `(\d+)\s*集`. -/
def matchNJi (cs : List Char) : Option (Nat × List Char) :=
  match takeDigits cs with
  | ([], _) => none
  | (ds, rest) =>
    match rest.dropWhile isPyWs with
    | j :: rest1 => if j == '集' then some (digitsVal ds, rest1) else none
    | [] => none

/-- Pattern `\[(\d+)\]`. -/
def matchBracketN (cs : List Char) : Option (Nat × List Char) :=
  match cs with
  | c :: rest =>
    if c == '[' then
      match takeDigits rest with
      | ([], _) => none
      | (ds, rest1) =>
        match rest1 with
        | j :: rest2 => if j == ']' then some (digitsVal ds, rest2) else none
        | [] => none
    else none
  | [] => none

/-- Pattern `(\d+)\s*话`. -/
def matchNHua (cs : List Char) : Option (Nat × List Char) :=
  match takeDigits cs with
  | ([], _) => none
  | (ds, rest) =>
    match rest.dropWhile isPyWs with
    | j :: rest1 => if j == '话' then some (digitsVal ds, rest1) else none
    | [] => none

/-- Pattern `_(\d+)(?:_|$)`; the consumed span includes the trailing
underscore when present, as in `re.sub`. -/
def matchUnderscoreN (cs : List Char) : Option (Nat × List Char) :=
  match cs with
  | c :: rest =>
    if c == '_' then
      match takeDigits rest with
      | ([], _) => none
      | (ds, rest1) =>
        match rest1 with
        | [] => some (digitsVal ds, [])
        | u :: rest2 => if u == '_' then some (digitsVal ds, rest2) else none
    else none
  | [] => none

/-- Pattern `\b(\d{1,3})\b`, which needs the character preceding the
match position for the left word boundary.  A digit run longer than
three characters can never satisfy the trailing boundary (backtracking
inside the run leaves a digit, a word character, after the group), so
it is rejected outright exactly as the regex engine does.  Returns the
captured digits and the remainder. -/
def matchBareNum (prev : Option Char) (cs : List Char) :
    Option ((Nat × List Char) × List Char) :=
  let boundaryBefore := match prev with
    | none => true
    | some c => !isWordChar c
  if boundaryBefore then
    match takeDigits cs with
    | ([], _) => none
    | (ds, rest) =>
      let boundaryAfter := match rest with
        | [] => true
        | c :: _ => !isWordChar c
      if decide (ds.length ≤ 3) && boundaryAfter then
        some ((digitsVal ds, ds), rest)
      else none
  else none

/-- Leftmost match of a positional scanner, as `re.search`/first
`re.finditer` hit. -/
def findFirstA (m : List Char → Option (α × List Char)) : List Char → Option α
  | [] => none
  | c :: cs =>
    match m (c :: cs) with
    | some (v, _) => some v
    | none => findFirstA m cs

/-- `re.sub(pattern, '', s)`: delete every non-overlapping leftmost
match, resuming the scan after each matched span.  Every scanner used
here consumes at least one character when it matches, so fuel equal to
the input length suffices and the function reduces structurally. -/
def removeAllAux (m : List Char → Option (α × List Char)) :
    Nat → List Char → List Char
  | 0, _ => []
  | _, [] => []
  | fuel + 1, c :: cs =>
    match m (c :: cs) with
    | some (_, rest) => removeAllAux m fuel rest
    | none => c :: removeAllAux m fuel cs

def removeAll (m : List Char → Option (α × List Char)) (cs : List Char) :
    List Char :=
  removeAllAux m cs.length cs

/-- `re.sub` for a scanner that needs the previous character (word
boundaries).  The boundary context is the original character stream, so
the previous character after a match is the last character of the match. -/
def removeAllPrevAux (m : Option Char → List Char → Option ((α × List Char) × List Char)) :
    Nat → Option Char → List Char → List Char
  | 0, _, _ => []
  | _, _, [] => []
  | fuel + 1, prev, c :: cs =>
    match m prev (c :: cs) with
    | some ((_, consumed), rest) =>
      removeAllPrevAux m fuel (consumed.getLast?.orElse (fun _ => prev)) rest
    | none => c :: removeAllPrevAux m fuel prev cs

def removeAllPrev (m : Option Char → List Char → Option ((α × List Char) × List Char))
    (cs : List Char) : List Char :=
  removeAllPrevAux m cs.length none cs

/-! ## VideoFileParser._is_valid_episode_number and episode extraction -/

/-- The quality/codec blacklist of `VideoFileParser.filter_keywords`. -/
def filter_keywords : List (List Char) :=
  ["1080p".data, "720p".data, "480p".data, "4k".data, "2160p".data,
   "x264".data, "x265".data, "h264".data, "h265".data,
   "bluray".data, "webrip".data, "hdtv".data, "dvdrip".data,
   "aac".data, "ac3".data, "dts".data, "flac".data,
   "mkv".data, "mp4".data, "avi".data, "mov".data]

/-- `VideoFileParser._is_valid_episode_number`: `ds` is the matched digit
text, `before`/`after` the up-to-ten characters surrounding the match. -/
def is_valid_episode_number (n : Nat) (ds before after : List Char) : Bool :=
  if !(decide (1 ≤ n) && decide (n ≤ 999)) then false
  else
    let beforeL := lowerSeq before
    let afterL := lowerSeq after
    let context := beforeL ++ ds ++ afterL
    if filter_keywords.any (fun kw => containsSeq kw context) then false
    else
      let episode_indicators : List (List Char) :=
        [['第'], ['集'], ['e', 'p'], ['e'], ['话'], ['-'], ['_'], [' ']]
      if episode_indicators.any
          (fun ind => containsSeq ind beforeL || containsSeq ind afterL) then
        true
      else if decide (10 ≤ n) && decide (n ≤ 99) then true
      else false

/-- Iterate the bare-number pattern over the filename, accepting the
first match that `_is_valid_episode_number` validates.  `prevRev` is the
reversed prefix already scanned (giving both the boundary character and
the ten-character `before` context). -/
def scanBareValid (prevRev : List Char) : List Char → Option Nat
  | [] => none
  | c :: cs =>
    match matchBareNum prevRev.head? (c :: cs) with
    | some ((n, ds), rest) =>
      if is_valid_episode_number n ds (prevRev.take 10).reverse (rest.take 10) then
        some n
      else scanBareValid (c :: prevRev) cs
    | none => scanBareValid (c :: prevRev) cs

structure EpisodeInfo where
  season : Option Nat
  episode : Nat
deriving DecidableEq, Repr

/-- `VideoFileParser._extract_episode_info`: try the patterns in their
priority order; the bare-number pattern (last) additionally validates
each candidate match. -/
def extract_episode_info (cs : List Char) : Option EpisodeInfo :=
  match findFirstA matchSxxExx cs with
  | some p => some ⟨some p.1, p.2⟩
  | none =>
  match findFirstA matchDiJi cs with
  | some e => some ⟨none, e⟩
  | none =>
  match findFirstA matchEPn cs with
  | some e => some ⟨none, e⟩
  | none =>
  match findFirstA matchNJi cs with
  | some e => some ⟨none, e⟩
  | none =>
  match findFirstA matchBracketN cs with
  | some e => some ⟨none, e⟩
  | none =>
  match findFirstA matchNHua cs with
  | some e => some ⟨none, e⟩
  | none =>
  match findFirstA matchUnderscoreN cs with
  | some e => some ⟨none, e⟩
  | none =>
  match scanBareValid [] cs with
  | some e => some ⟨none, e⟩
  | none => none

/-! ## VideoFileParser._extract_series_name -/

/-- Case-insensitive keyword occurrence at the head of the input with a
trailing word boundary; returns consumed text and remainder. -/
def matchKwAt (kw : List Char) (cs : List Char) : Option (List Char × List Char) :=
  if ciPrefixSeq kw cs then
    let rest := cs.drop kw.length
    let boundaryAfter := match rest with
      | [] => true
      | c :: _ => !isWordChar c
    if boundaryAfter then some (cs.take kw.length, rest) else none
  else none

/-- Pattern `\b(kw1|kw2|...)\b` with `re.IGNORECASE`: leading word
boundary against the previous character, first alternative that fits. -/
def matchKeywordAlt (kws : List (List Char)) (prev : Option Char) (cs : List Char) :
    Option ((Unit × List Char) × List Char) :=
  let boundaryBefore := match prev with
    | none => true
    | some c => !isWordChar c
  if boundaryBefore then
    match kws.findSome? (fun kw => matchKwAt kw cs) with
    | some (consumed, rest) => some (((), consumed), rest)
    | none => none
  else none

/-- Scan forward to the closing character (lazy `.*?`), failing on a
newline since `.` does not match it. -/
def findClose (close : Char) : List Char → Option (List Char)
  | [] => none
  | c :: cs =>
    if c == close then some cs
    else if c == '\n' then none
    else findClose close cs

/-- Pattern `\[(.*?)\]`. -/
def matchBracketAny (cs : List Char) : Option (Unit × List Char) :=
  match cs with
  | c :: rest =>
    if c == '[' then (findClose ']' rest).map (fun r => ((), r)) else none
  | [] => none

/-- Pattern `\((.*?)\)`. -/
def matchParenAny (cs : List Char) : Option (Unit × List Char) :=
  match cs with
  | c :: rest =>
    if c == '(' then (findClose ')' rest).map (fun r => ((), r)) else none
  | [] => none

/-- Separator class `[-_\s]`. -/
def isSepChar (c : Char) : Bool := c == '-' || c == '_' || isPyWs c

/-- `re.sub(r'[-_\s]+', ' ', s)`: collapse each separator run to one
space (fuel-based since the run skip is not structural). -/
def collapseSepsAux : Nat → List Char → List Char
  | 0, _ => []
  | _, [] => []
  | fuel + 1, c :: cs =>
    if isSepChar c then ' ' :: collapseSepsAux fuel (cs.dropWhile isSepChar)
    else c :: collapseSepsAux fuel cs

def collapseSeps (cs : List Char) : List Char := collapseSepsAux cs.length cs

def isStripChar (c : Char) : Bool := c == ' ' || c == '-' || c == '_'

/-- Python `s.strip(' -_')`. -/
def stripSeps (cs : List Char) : List Char :=
  ((cs.dropWhile isStripChar).reverse.dropWhile isStripChar).reverse

/-- Python `s.strip()` (whitespace). -/
def stripPyWs (cs : List Char) : List Char :=
  ((cs.dropWhile isPyWs).reverse.dropWhile isPyWs).reverse

/-- The eight episode-pattern removals of `_extract_series_name`, in the
order of `self.episode_patterns`. -/
def removeEpisodePatterns (cs : List Char) : List Char :=
  let c1 := removeAll matchSxxExx cs
  let c2 := removeAll matchDiJi c1
  let c3 := removeAll matchEPn c2
  let c4 := removeAll matchNJi c3
  let c5 := removeAll matchBracketN c4
  let c6 := removeAll matchNHua c5
  let c7 := removeAll matchUnderscoreN c6
  removeAllPrev matchBareNum c7

def series_quality_kws1 : List (List Char) :=
  ["1080p", "720p", "480p", "4k", "2160p"].map String.data
def series_quality_kws2 : List (List Char) :=
  ["x264", "x265", "h264", "h265"].map String.data
def series_quality_kws3 : List (List Char) :=
  ["bluray", "webrip", "hdtv", "dvdrip", "bdrip"].map String.data
def series_quality_kws4 : List (List Char) :=
  ["aac", "ac3", "dts", "flac", "mp3"].map String.data

/-- The quality/codec/bracket removals of `_extract_series_name`. -/
def removeSeriesQualityPatterns (cs : List Char) : List Char :=
  let c1 := removeAllPrev (matchKeywordAlt series_quality_kws1) cs
  let c2 := removeAllPrev (matchKeywordAlt series_quality_kws2) c1
  let c3 := removeAllPrev (matchKeywordAlt series_quality_kws3) c2
  let c4 := removeAllPrev (matchKeywordAlt series_quality_kws4) c3
  let c5 := removeAll matchBracketAny c4
  removeAll matchParenAny c5

/-- `VideoFileParser._extract_series_name`, including the conservative
second pass when the aggressive cleaning leaves fewer than two
characters. -/
def extract_series_name (cs : List Char) (info : EpisodeInfo) : Option (List Char) :=
  let c0 := if info.season.isSome then removeAll matchSxxExx cs else cs
  let c1 := removeEpisodePatterns c0
  let c2 := removeSeriesQualityPatterns c1
  let clean := stripSeps (collapseSeps c2)
  if decide (clean.length < 2) then
    let d1 := removeAll matchDiJi cs
    let d2 := removeAll matchSxxExx d1
    let d3 := removeAll matchEPn d2
    let d := stripSeps (collapseSeps d3)
    if d.isEmpty then none else some d
  else some clean

/-! ## VideoFileParser._detect_content_type

Only the movie patterns decide the outcome: both the TV branch and the
default branch of the source return the episodic type. -/

inductive ContentType
  | movie
  | tv_series
deriving DecidableEq, Repr

/-- Movie pattern `.+\s*\((\d{4})\)\s*[-–—]?\s*`: a literal `(` at index
at least one followed by exactly four digits and `)`. -/
def scanMovieP1 : Bool → List Char → Bool
  | _, [] => false
  | seen, c :: cs =>
    (seen && c == '(' &&
      (match takeDigits cs with
       | (ds, r :: _) => ds.length == 4 && r == ')'
       | (_, []) => false)) ||
    scanMovieP1 true cs

/-- Movie pattern `.+\s+\d{4}\s*[-–—]\s*`: a whitespace run at index at
least one, exactly four digits, optional whitespace, then a dash. -/
def scanMovieP2 : Bool → List Char → Bool
  | _, [] => false
  | seen, c :: cs =>
    (seen && isPyWs c &&
      (match takeDigits (cs.dropWhile isPyWs) with
       | (ds, rest) =>
         ds.length == 4 &&
           (match rest.dropWhile isPyWs with
            | d :: _ => d == '-' || d == '–' || d == '—'
            | [] => false))) ||
    scanMovieP2 true cs

/-- Movie pattern `.+\s+\d{4}\s*$`. -/
def scanMovieP3 : Bool → List Char → Bool
  | _, [] => false
  | seen, c :: cs =>
    (seen && isPyWs c &&
      (match takeDigits (cs.dropWhile isPyWs) with
       | (ds, rest) => ds.length == 4 && (rest.dropWhile isPyWs).isEmpty)) ||
    scanMovieP3 true cs

/-- `VideoFileParser._detect_content_type`. -/
def detect_content_type (cs : List Char) : ContentType :=
  if scanMovieP1 false cs || scanMovieP2 false cs || scanMovieP3 false cs then
    ContentType.movie
  else ContentType.tv_series

/-! ## VideoFileParser: movie parsing and the top-level entry point -/

structure VideoInfo where
  series_name : String
  season : Option Nat
  episode : Nat
  year : Option Nat
  content_type : ContentType
  original_filename : String
  file_ext : String
  file_dir : String
deriving DecidableEq, Repr

def movie_quality_kws1 : List (List Char) :=
  ["1080p", "720p", "480p", "4k", "2160p", "uhd", "hd"].map String.data
def movie_quality_kws2 : List (List Char) :=
  ["x264", "x265", "h264", "h265", "hevc"].map String.data
def movie_quality_kws3 : List (List Char) :=
  ["bluray", "webrip", "hdtv", "dvdrip", "bdrip", "web-dl"].map String.data
def movie_quality_kws4 : List (List Char) :=
  ["aac", "ac3", "dts", "flac", "mp3"].map String.data

/-- `VideoFileParser._clean_movie_name` (bracket removal but no paren
removal, then separator collapse and strip). -/
def clean_movie_name (cs : List Char) : List Char :=
  let c1 := removeAllPrev (matchKeywordAlt movie_quality_kws1) cs
  let c2 := removeAllPrev (matchKeywordAlt movie_quality_kws2) c1
  let c3 := removeAllPrev (matchKeywordAlt movie_quality_kws3) c2
  let c4 := removeAllPrev (matchKeywordAlt movie_quality_kws4) c3
  let c5 := removeAll matchBracketAny c4
  stripSeps (collapseSeps c5)

/-- After the lazy name group: `\s*\((\d{4})\)` and then the year's
suffix `\s*-?\s*` before the extra-info group. -/
def tryParenYear (cs : List Char) : Option (Nat × List Char) :=
  match cs.dropWhile isPyWs with
  | c :: r =>
    if c == '(' then
      match takeDigits r with
      | (ds, j :: r2) =>
        if ds.length == 4 && j == ')' then
          let r3 := r2.dropWhile isPyWs
          let r4 := match r3 with
            | d :: t => if d == '-' then t.dropWhile isPyWs else r3
            | [] => r3
          some (digitsVal ds, r4)
        else none
      | (_, []) => none
    else none
  | [] => none

/-- Strict movie pattern `^(.+?)\s*\((\d{4})\)\s*-?\s*(.*?)$` via
`re.match`: the lazy name group takes the shortest nonempty prefix that
leaves a parenthesised four-digit year. -/
def strictMovieAux : Nat → List Char → List Char → Option (List Char × Nat × List Char)
  | 0, _, _ => none
  | _, _, [] => none
  | fuel + 1, nameRev, c :: cs =>
    match tryParenYear cs with
    | some (year, rest) => some ((c :: nameRev).reverse, year, rest)
    | none => strictMovieAux fuel (c :: nameRev) cs

/-- First window of four consecutive digits, as captured by the loose
pattern `^(.+?).*?(\d{4}).*?$`. -/
def findFourDigits : List Char → Option Nat
  | [] => none
  | c :: cs =>
    if c.isDigit &&
        (match cs with
         | a :: b :: d :: _ => a.isDigit && b.isDigit && d.isDigit
         | _ => false) then
      some (digitsVal (c :: cs.take 3))
    else findFourDigits cs

/-- `VideoFileParser._parse_movie_filename`.  In the loose fallback the
lazy leading group captures exactly one character, so its cleaned name
always fails the two-character minimum; the branch is kept faithful to
the source nonetheless. -/
def parse_movie_filename (noExt : List Char) (origName ext fileDir : String) :
    Option VideoInfo :=
  match strictMovieAux noExt.length [] noExt with
  | some (nameRaw, year, _extra) =>
    if decide (1900 ≤ year) && decide (year ≤ 2030) then
      let clean := clean_movie_name (stripPyWs nameRaw)
      if decide (clean.length < 2) then none
      else
        some { series_name := ⟨clean⟩, season := none, episode := 1,
               year := some year, content_type := ContentType.movie,
               original_filename := origName, file_ext := ext,
               file_dir := fileDir }
    else none
  | none =>
    match noExt with
    | [] => none
    | c :: rest =>
      match findFourDigits rest with
      | some year =>
        if decide (1900 ≤ year) && decide (year ≤ 2030) then
          let clean := clean_movie_name (stripPyWs [c])
          if decide (2 ≤ clean.length) then
            some { series_name := ⟨clean⟩, season := none, episode := 1,
                   year := some year, content_type := ContentType.movie,
                   original_filename := origName, file_ext := ext,
                   file_dir := fileDir }
          else none
        else none
      | none => none

/-- `VideoFileParser._parse_tv_series_filename`. -/
def parse_tv_series_filename (noExt : List Char) (origName ext fileDir : String) :
    Option VideoInfo :=
  match extract_episode_info noExt with
  | none => none
  | some info =>
    match extract_series_name noExt info with
    | none => none
    | some name =>
      some { series_name := ⟨stripPyWs name⟩, season := info.season,
             episode := info.episode, year := none,
             content_type := ContentType.tv_series,
             original_filename := origName, file_ext := ext,
             file_dir := fileDir }

/-- `os.path.basename`. -/
def basenameModel (cs : List Char) : List Char :=
  cs.foldl (fun acc c => if c == '/' then [] else acc ++ [c]) []

/-- `os.path.dirname` (without the absolute-path resolution of the
source, which only feeds log output and artifact directories). -/
def dirnameModel (cs : List Char) : List Char :=
  if (basenameModel cs).length == cs.length then []
  else cs.take (cs.length - (basenameModel cs).length - 1)

/-- Split at the last dot, the extension keeping the dot. -/
def lastDotSplit (cs : List Char) : Option (List Char × List Char) :=
  let tail := cs.reverse.takeWhile (fun c => !(c == '.'))
  if tail.length == cs.length then none
  else some (cs.take (cs.length - tail.length - 1),
             cs.drop (cs.length - tail.length - 1))

/-- `os.path.splitext` (leading dots of a hidden file never start the
extension). -/
def splitextModel (name : List Char) : List Char × List Char :=
  let lead := name.takeWhile (fun c => c == '.')
  match lastDotSplit (name.drop lead.length) with
  | some (stem, ext) => (lead ++ stem, ext)
  | none => (name, [])

/-- `VideoFileParser.parse_video_filename` with its auto-detection and
fallback order. -/
def parse_video_filename (filepath : String) (ctype : Option ContentType) :
    Option VideoInfo :=
  let filename := basenameModel filepath.data
  let p := splitextModel filename
  let noExt := p.1
  let origName : String := ⟨noExt⟩
  let extS : String := ⟨p.2⟩
  let fileDir : String := ⟨dirnameModel filepath.data⟩
  match ctype with
  | some ContentType.movie => parse_movie_filename noExt origName extS fileDir
  | some ContentType.tv_series => parse_tv_series_filename noExt origName extS fileDir
  | none =>
    match detect_content_type noExt with
    | ContentType.movie =>
      match parse_movie_filename noExt origName extS fileDir with
      | some r => some r
      | none => parse_tv_series_filename noExt origName extS fileDir
    | ContentType.tv_series =>
      match parse_tv_series_filename noExt origName extS fileDir with
      | some r => some r
      | none => parse_movie_filename noExt origName extS fileDir

/-! ## Python values for the heterogeneous comment payloads -/

/-- A JSON-like Python value as seen by `JsonToXmlConverter`: dicts,
lists (covering tuples as well), strings and integers. -/
inductive PyVal
  | dict : List (String × PyVal) → PyVal
  | list : List PyVal → PyVal
  | str : String → PyVal
  | int : Int → PyVal

namespace PyVal

/-- Python `repr`, used by `str` on the elements of containers. -/
def pyRepr : PyVal → String
  | .str s => aposS ++ s ++ aposS
  | .int n => toString n
  | .list l => "[" ++ String.intercalate ", " (reprList l) ++ "]"
  | .dict d => "\x7b" ++ String.intercalate ", " (reprDict d) ++ "\x7d"
where
  reprList : List PyVal → List String
    | [] => []
    | v :: vs => pyRepr v :: reprList vs
  reprDict : List (String × PyVal) → List String
    | [] => []
    | (k, v) :: kvs => (aposS ++ k ++ aposS ++ ": " ++ pyRepr v) :: reprDict kvs

/-- Python `str(...)`. -/
def pyStr : PyVal → String
  | .str s => s
  | v => pyRepr v

/-- Python `d.get(key)` on a dict-shaped value (dict keys are unique, so
the first association wins). -/
def dictGet (d : List (String × PyVal)) (k : String) : Option PyVal :=
  (d.find? (fun kv => kv.1 == k)).map (fun kv => kv.2)

/-- Python `d.get(k, default)`. -/
def dictGetD (d : List (String × PyVal)) (k : String) (dflt : PyVal) : PyVal :=
  (dictGet d k).getD dflt

end PyVal

/-! ## JsonToXmlConverter: normalization -/

/-- A normalized comment record: the packed `p` attribute and text `m`. -/
structure NormComment where
  p : String
  m : String
deriving DecidableEq, Repr

/-- `JsonToXmlConverter._normalize_single_comment`: the first text key
present wins even when its value stringifies to the empty string, and an
empty text drops the record. -/
def normalize_single_comment (comment : List (String × PyVal)) : Option NormComment :=
  let text : String :=
    match (["m", "text", "content", "message", "danmaku"].findSome?
        (fun k => (PyVal.dictGet comment k).map PyVal.pyStr)) with
    | some t => t
    | none => ""
  if text == "" then none
  else
    let p : String :=
      match PyVal.dictGet comment "p" with
      | some v => v.pyStr
      | none =>
        let time_sec := PyVal.dictGetD comment "time" (PyVal.dictGetD comment "t" (.int 0))
        let mode := PyVal.dictGetD comment "mode" (PyVal.dictGetD comment "type" (.int 1))
        let fontsize := PyVal.dictGetD comment "fontsize" (PyVal.dictGetD comment "size" (.int 25))
        let color := PyVal.dictGetD comment "color" (PyVal.dictGetD comment "c" (.int 16777215))
        let timestamp := PyVal.dictGetD comment "timestamp" (PyVal.dictGetD comment "ts" (.int 0))
        let pool := PyVal.dictGetD comment "pool" (.int 0)
        let user_id := PyVal.dictGetD comment "user_id" (PyVal.dictGetD comment "uid" (.int 0))
        let cid := PyVal.dictGetD comment "cid" (PyVal.dictGetD comment "id" (.int 0))
        time_sec.pyStr ++ "," ++ mode.pyStr ++ "," ++ fontsize.pyStr ++ "," ++
          color.pyStr ++ "," ++ timestamp.pyStr ++ "," ++ pool.pyStr ++ "," ++
          user_id.pyStr ++ "," ++ cid.pyStr
    some { p := p, m := text }

/-- `JsonToXmlConverter._normalize_array_comment`: note that no
non-empty-text check is performed on this shape. -/
def normalize_array_comment (comment : List PyVal) : Option NormComment :=
  if decide (comment.length < 2) then none
  else
    let text : String := (comment.getLast?.map PyVal.pyStr).getD ""
    let p : String :=
      if decide (5 ≤ comment.length) then
        String.intercalate "," (comment.dropLast.map PyVal.pyStr)
      else
        let time_sec := (comment.get? 0).getD (.int 0)
        let mode := (comment.get? 1).getD (.int 1)
        let fontsize := (comment.get? 2).getD (.int 25)
        let color := (comment.get? 3).getD (.int 16777215)
        time_sec.pyStr ++ "," ++ mode.pyStr ++ "," ++ fontsize.pyStr ++ "," ++
          color.pyStr ++ ",0,0,0,0"
    some { p := p, m := text }

/-- `JsonToXmlConverter._normalize_comments`: dispatch on shape, keep
the records whose normalization returned a value (a `None` is skipped
and never aborts the batch); the scalar default uses the enumeration
index. -/
def normalize_comments_aux (i : Nat) : List PyVal → List NormComment
  | [] => []
  | comment :: rest =>
    let norm : Option NormComment :=
      match comment with
      | .dict d => normalize_single_comment d
      | .list l => normalize_array_comment l
      | other =>
        some { p := String.mk (natDigits (i * 5)) ++ ",1,25,16777215,0,0,0," ++
                 String.mk (natDigits i),
               m := other.pyStr }
    match norm with
    | some r => r :: normalize_comments_aux (i + 1) rest
    | none => normalize_comments_aux (i + 1) rest

def normalize_comments (comments : List PyVal) : List NormComment :=
  normalize_comments_aux 0 comments

/-! ## JsonToXmlConverter: escaping and XML generation -/

/-- The XML 1.0 legal character ranges kept by `clean_xml_string`. -/
def isXmlLegalChar (c : Char) : Bool :=
  c == '\x09' || c == '\x0a' || c == '\x0d' ||
  (decide (0x20 ≤ c.toNat) && decide (c.toNat ≤ 0xD7FF)) ||
  (decide (0xE000 ≤ c.toNat) && decide (c.toNat ≤ 0xFFFD)) ||
  (decide (0x10000 ≤ c.toNat) && decide (c.toNat ≤ 0x10FFFF))

/-- `JsonToXmlConverter.clean_xml_string`. -/
def clean_xml_string (cs : List Char) : List Char := cs.filter isXmlLegalChar

/-- `str.replace(target, rep)` at the character level. -/
def replaceCharSeq (target : Char) (rep : List Char) : List Char → List Char
  | [] => []
  | c :: cs => (if c == target then rep else [c]) ++ replaceCharSeq target rep cs

/-- `JsonToXmlConverter.xml_escape`: clean, then the five sequential
replacements of the source (in its order, so entities introduced by one
step are never re-escaped by a later one). -/
def xml_escape (cs : List Char) : List Char :=
  if cs.isEmpty then []
  else
    let t0 := clean_xml_string cs
    let t1 := replaceCharSeq '&' "&amp;".data t0
    let t2 := replaceCharSeq '<' "&lt;".data t1
    let t3 := replaceCharSeq '>' "&gt;".data t2
    let t4 := replaceCharSeq '"' "&quot;".data t3
    replaceCharSeq aposChar ("&apos".data ++ [';']) t4

/-- Python `s.split(',')` (empty fields preserved; an empty string
yields one empty field). -/
def splitCommaAux (acc : List Char) : List Char → List (List Char)
  | [] => [acc.reverse]
  | c :: cs =>
    if c == ',' then acc.reverse :: splitCommaAux [] cs
    else splitCommaAux (c :: acc) cs

def splitComma (cs : List Char) : List (List Char) := splitCommaAux [] cs

/-- Python `','.join(fields)`. -/
def joinComma : List (List Char) → List Char
  | [] => []
  | [x] => x
  | x :: y :: rest => x ++ ',' :: joinComma (y :: rest)

/-- Python `str.strip().isdigit()` on an ASCII field. -/
def pyIsDigitStr (cs : List Char) : Bool := !cs.isEmpty && cs.all Char.isDigit

/-- A field counts as bracketed when it contains both `[` and `]`
(the `core_parts_end_index` test of `generate_dandan_xml`). -/
def isBracketedField (part : List Char) : Bool :=
  part.contains '[' && part.contains ']'

/-- The repair of the core fields in `generate_dandan_xml`: insert the
default font size `25` as third field when only three fields are
present; overwrite a blank or non-numeric third field when four are. -/
def repair_core_parts (core : List (List Char)) : List (List Char) :=
  if core.length == 3 then core.take 2 ++ ["25".data] ++ core.drop 2
  else if core.length == 4 &&
      (match core.get? 2 with
       | some f => f.isEmpty || !pyIsDigitStr (stripPyWs f)
       | none => false) then
    core.take 2 ++ ["25".data] ++ core.drop 3
  else core

/-- The whole packed-attribute handling of one comment in
`generate_dandan_xml`: split on commas, cut at the first bracketed
field, repair the core, re-join. -/
def repairPAttr (pstr : List Char) : List Char :=
  let p_parts := splitComma pstr
  let core_parts := p_parts.takeWhile (fun part => !isBracketedField part)
  let optional_parts := p_parts.dropWhile (fun part => !isBracketedField part)
  joinComma (repair_core_parts core_parts ++ optional_parts)

/-- The fixed header lines of `generate_dandan_xml` (note: record count
as `maxlimit`, no provider field of any kind). -/
def dandanHeaderLines (count : Nat) : List String :=
  ["<?xml version=\"1.0\" encoding=\"UTF-8\"?>",
   "<i>",
   "  <chatserver>danmu</chatserver>",
   "  <chatid>0</chatid>",
   "  <mission>0</mission>",
   "  <maxlimit>" ++ String.mk (natDigits count) ++ "</maxlimit>",
   "  <source>kuyun</source>"]

def dandanCommentLine (c : NormComment) : String :=
  "  <d p=\"" ++ String.mk (repairPAttr c.p.data) ++ "\">" ++
    String.mk (xml_escape c.m.data) ++ "</d>"

/-- `JsonToXmlConverter.generate_dandan_xml`. -/
def generate_dandan_xml (comments : List NormComment) : String :=
  String.intercalate "\n"
    (dandanHeaderLines comments.length ++ comments.map dandanCommentLine ++ ["</i>"])

/-- One subelement of the ElementTree layout. -/
structure XmlElem where
  tag : String
  text : String
deriving DecidableEq, Repr

/-- The ElementTree produced by `generate_xml_from_comments`: header
subelements in construction order, then one `d` element per comment. -/
structure XmlTreeResult where
  headerFields : List XmlElem
  dElems : List (String × String)
deriving DecidableEq, Repr

/-- `JsonToXmlConverter.generate_xml_from_comments` (the alternative
layout, carrying both `sourceprovider` and `datasize`). -/
def generate_xml_from_comments (comments : List NormComment) (episode_id : Nat)
    (provider_name chat_server : String) : XmlTreeResult :=
  { headerFields :=
      [⟨"chatserver", chat_server⟩,
       ⟨"chatid", String.mk (natDigits episode_id)⟩,
       ⟨"mission", "0"⟩,
       ⟨"maxlimit", "2000"⟩,
       ⟨"source", "k-v"⟩,
       ⟨"sourceprovider", provider_name⟩,
       ⟨"datasize", String.mk (natDigits comments.length)⟩],
    dElems := comments.map (fun c => (c.p, c.m)) }

/-- Python truthiness on the modeled values. -/
def pyTruthy : PyVal → Bool
  | .list l => !l.isEmpty
  | .dict d => !d.isEmpty
  | .str s => !(s == "")
  | .int n => !(n == 0)

inductive XmlOutput
  | dandan : String → XmlOutput
  | elemTree : XmlTreeResult → XmlOutput
deriving DecidableEq, Repr

/-- `JsonToXmlConverter.convert_json_to_xml` on already-decoded data
(the callers in this repository pass parsed lists; the `json.loads`
branch for raw strings is outside the model).  `none` is the `False`
return: no comments found, or the exception path (iterating an integer
payload) caught by the outer handler.  `some` carries the content that
is written to the output file. -/
def convert_json_to_xml (data : PyVal) (episode_id : Nat)
    (use_dandan_format : Bool) : Option XmlOutput :=
  let commentsVal : Option PyVal :=
    match data with
    | .list l => some (.list l)
    | .dict d =>
      match PyVal.dictGet d "comments" with
      | some v => some v
      | none =>
        match PyVal.dictGet d "data" with
        | some v => some v
        | none =>
          match PyVal.dictGet d "danmaku" with
          | some v => some v
          | none => some (.dict d)
    | _ => none
  match commentsVal with
  | none => none
  | some v =>
    if !pyTruthy v then none
    else
      let seq : Option (List PyVal) :=
        match v with
        | .list l => some l
        | .dict d => some (d.map (fun kv => PyVal.str kv.1))
        | .str s => some (s.data.map (fun c => PyVal.str (String.mk [c])))
        | .int _ => none
      match seq with
      | none => none
      | some l =>
        let normalized := normalize_comments l
        if use_dandan_format then some (.dandan (generate_dandan_xml normalized))
        else
          some (.elemTree (generate_xml_from_comments normalized episode_id
            "misaka" "danmaku.misaka.org"))

/-! ## DanmuClient (danmu_client.py)

The remote service is abstracted as response maps; `_make_request` is
the only place an HTTP request happens and it appends the requested URL
to a log, so request counts are the length of that log. -/

structure Anime where
  animeId : Nat
  title : String
  season : Nat
deriving DecidableEq, Repr

structure SourceEntry where
  sourceId : Nat
  providerName : String
deriving DecidableEq, Repr

structure EpisodeEntry where
  episodeId : Nat
  episodeTitle : String
deriving DecidableEq, Repr

structure DanmakuData where
  count : Nat
  comments : List PyVal

/-- The cache TTL constants of the class (present in the source but,
as proved below, never consulted by any request method). -/
def LIBRARY_CACHE_TTL : Nat := 300
def SOURCES_CACHE_TTL : Nat := 600
def EPISODES_CACHE_TTL : Nat := 600

/-- The mutable state of a `DanmuClient`: the three caches initialized
by `__init__` and a log of the URLs passed to `_make_request`. -/
structure ClientState where
  libraryCacheData : Option (List Anime)
  libraryCacheTimestamp : Nat
  sourcesCache : List (Nat × (List SourceEntry × Nat))
  episodesCache : List (Nat × (List EpisodeEntry × Nat))
  requestLog : List String
deriving Repr

/-- The state after `DanmuClient.__init__`. -/
def initClientState : ClientState :=
  { libraryCacheData := none, libraryCacheTimestamp := 0,
    sourcesCache := [], episodesCache := [], requestLog := [] }

/-- The remote service behind the four endpoints. -/
structure RemoteService where
  library : List Anime
  sources : Nat → List SourceEntry
  episodes : Nat → List EpisodeEntry
  danmaku : Nat → Option DanmakuData

/-- `DanmuClient.get_library_list`: builds the URL and calls
`_make_request` unconditionally — the source never reads or writes
`_library_cache` here. -/
def get_library_list (svc : RemoteService) (baseUrl : String)
    (st : ClientState) : (Bool × List Anime) × ClientState :=
  let url := baseUrl ++ "/api/control/library"
  ((true, svc.library), { st with requestLog := st.requestLog ++ [url] })

/-- `DanmuClient.get_anime_sources`: likewise calls through on every
invocation, never touching `_sources_cache`. -/
def get_anime_sources (svc : RemoteService) (baseUrl : String)
    (st : ClientState) (animeId : Nat) : (Bool × List SourceEntry) × ClientState :=
  let url := baseUrl ++ "/api/control/library/anime/" ++
    String.mk (natDigits animeId) ++ "/sources"
  ((true, svc.sources animeId), { st with requestLog := st.requestLog ++ [url] })

/-- `DanmuClient.get_source_episodes`. -/
def get_source_episodes (svc : RemoteService) (baseUrl : String)
    (st : ClientState) (sourceId : Nat) : (Bool × List EpisodeEntry) × ClientState :=
  let url := baseUrl ++ "/api/control/library/source/" ++
    String.mk (natDigits sourceId) ++ "/episodes"
  ((true, svc.episodes sourceId), { st with requestLog := st.requestLog ++ [url] })

/-! ## DanmuDownloader (danmu_downloader.py) -/

/-- `config.DANMU_SOURCES`. -/
def DANMU_SOURCES : List (String × String) :=
  [("iqiyi", "IqiyiID"), ("bilibili", "BilibiliID"),
   ("tencent", "TencentID"), ("youku", "YoukuID")]

/-- `config.DEFAULT_SOURCE`. -/
def DEFAULT_SOURCE : String := "iqiyi"

def pyLowerS (s : String) : String := ⟨lowerSeq s.data⟩

/-- Python `str.capitalize()`. -/
def pyCapitalize (s : String) : String :=
  match s.data with
  | [] => ""
  | c :: cs => ⟨c.toUpper :: lowerSeq cs⟩

/-- `DANMU_SOURCES.get(provider_name.lower(), provider_name.capitalize() + "ID")`,
used both for the artifact suffix and the XML provider name. -/
def danmuSourceSuffix (provider : String) : String :=
  match (DANMU_SOURCES.find? (fun kv => kv.1 == pyLowerS provider)).map Prod.snd with
  | some s => s
  | none => pyCapitalize provider ++ "ID"

/-- A raised Python exception, carrying `str(e)`. -/
structure PyErr where
  msg : String
deriving DecidableEq, Repr

/-- `f"...{season:02d}..."` on a value that may be `None`: formatting
`None` with a numeric format spec raises `TypeError`. -/
def pyFormat02dOpt : Option Nat → Except PyErr (List Char)
  | some n => Except.ok (fmt02 n)
  | none =>
    Except.error ⟨"unsupported format string passed to NoneType.__format__"⟩

/-- Dynamic pattern `第\s*{num}\s*集` with the literal digits of the
target episode. -/
def matchDiLit (numStr : List Char) (cs : List Char) : Option (Unit × List Char) :=
  match cs with
  | c :: rest =>
    if c == '第' then
      let r1 := rest.dropWhile isPyWs
      if prefixSeq numStr r1 then
        match (r1.drop numStr.length).dropWhile isPyWs with
        | j :: r2 => if j == '集' then some ((), r2) else none
        | [] => none
      else none
    else none
  | [] => none

/-- Dynamic pattern `EP\s*{num}` under `re.IGNORECASE`. -/
def matchEPLit (numStr : List Char) (cs : List Char) : Option (Unit × List Char) :=
  match cs with
  | e :: p :: rest =>
    if (e == 'E' || e == 'e') && (p == 'P' || p == 'p') then
      let r1 := rest.dropWhile isPyWs
      if prefixSeq numStr r1 then some ((), r1.drop numStr.length) else none
    else none
  | _ => none

/-- Dynamic pattern `\b{num}\b`. -/
def matchWordLit (numStr : List Char) (prev : Option Char) (cs : List Char) :
    Option (Unit × List Char) :=
  let boundaryBefore := match prev with
    | none => true
    | some c => !isWordChar c
  if boundaryBefore && prefixSeq numStr cs then
    let rest := cs.drop numStr.length
    let boundaryAfter := match rest with
      | [] => true
      | c :: _ => !isWordChar c
    if boundaryAfter then some ((), rest) else none
  else none

/-- Leftmost search for a boundary-sensitive scanner. -/
def findFirstPrev (m : Option Char → List Char → Option (α × List Char)) :
    Option Char → List Char → Option α
  | _, [] => none
  | prev, c :: cs =>
    match m prev (c :: cs) with
    | some (v, _) => some v
    | none => findFirstPrev m (some c) cs

/-- The six patterns tried by `DanmuDownloader._match_episode` against
one episode title, in source order. -/
def episodeTitleMatches (n : Nat) (title : List Char) : Bool :=
  let ns := natDigits n
  let ns02 := fmt02 n
  (findFirstA (matchDiLit ns) title).isSome ||
  (findFirstA (matchDiLit ns02) title).isSome ||
  (findFirstA (matchEPLit ns02) title).isSome ||
  (findFirstA (matchEPLit ns) title).isSome ||
  (findFirstPrev (matchWordLit ns02) none title).isSome ||
  (findFirstPrev (matchWordLit ns) none title).isSome

/-- `DanmuDownloader._match_episode`: title patterns first, then the
1-indexed positional fallback. -/
def match_episode (episodes : List EpisodeEntry) (n : Nat) : Option EpisodeEntry :=
  match episodes.find? (fun ep => episodeTitleMatches n ep.episodeTitle.data) with
  | some ep => some ep
  | none =>
    if decide (1 ≤ n) && decide (n ≤ episodes.length) then episodes.get? (n - 1)
    else none

/-- `DanmuDownloader._search_anime`: two-way case-insensitive substring
match on titles, then exact-season preference with first-match fallback. -/
def search_anime (library : List Anime) (series_name : String)
    (season : Option Nat) : Option Anime :=
  let matched := library.filter (fun a => mutualSubstring series_name.data a.title.data)
  match matched with
  | [] => none
  | first :: _ =>
    match season with
    | some s =>
      match matched.find? (fun a => a.season == s) with
      | some a => some a
      | none => some first
    | none => some first

/-- Python dict assignment `d[k] = v`: overwrite in place, or append. -/
def dictUpsert (l : List (String × α)) (k : String) (v : α) : List (String × α) :=
  if l.any (fun kv => kv.1 == k) then
    l.map (fun kv => if kv.1 == k then (k, v) else kv)
  else l ++ [(k, v)]

def collectEpisodes (svc : RemoteService) :
    List SourceEntry → List (String × List EpisodeEntry) → List (String × List EpisodeEntry)
  | [], acc => acc
  | s :: rest, acc =>
    let eps := svc.episodes s.sourceId
    if eps.isEmpty then collectEpisodes svc rest acc
    else collectEpisodes svc rest (dictUpsert acc s.providerName eps)

/-- `DanmuDownloader._get_episodes`: dictionary from provider name to its
nonempty episode list, `None` when no source yields episodes. -/
def get_episodes (svc : RemoteService) (animeId : Nat) :
    Option (List (String × List EpisodeEntry)) :=
  let sources := svc.sources animeId
  if sources.isEmpty then none
  else
    let all := collectEpisodes svc sources []
    if all.isEmpty then none else some all

/-- `os.path.join(dir, base)` for the cases arising here. -/
def joinPath (dir base : String) : String :=
  if dir == "" then base else dir ++ "/" ++ base

/-- `DanmuDownloader._get_correct_danmu_filepath`; formatting the season
with `{:02d}` raises `TypeError` whenever the parsed season is `None`. -/
def get_correct_danmu_filepath (info : VideoInfo) (provider : String)
    (video_filepath : String) : Except PyErr String :=
  let suffix := danmuSourceSuffix provider
  match pyFormat02dOpt info.season with
  | Except.error e => Except.error e
  | Except.ok s02 =>
    let base := info.series_name ++ " - S" ++ String.mk s02 ++ "E" ++
      String.mk (natDigits info.episode) ++ " - 第 " ++
      String.mk (natDigits info.episode) ++ " 集_" ++ suffix ++ ".xml"
    Except.ok (joinPath ⟨dirnameModel video_filepath.data⟩ base)

/-- The parameter names accepted by
`JsonToXmlConverter.convert_json_to_xml` (its `def` signature). -/
def convert_json_to_xml_params : List String :=
  ["json_data", "output_path", "episode_id", "use_dandan_format"]

/-- The keyword arguments `DanmuDownloader._save_danmu_xml` passes at
its call of `convert_json_to_xml`. -/
def save_danmu_xml_call_kwargs : List String :=
  ["use_dandan_format", "provider_name"]

/-- `DanmuDownloader._save_danmu_xml`: a keyword argument that the
callee does not declare raises `TypeError` at the call, which the
method's own handler turns into `False`; only if the call were legal
would the converter run and the file be written. -/
def save_danmu_xml (danmu_data : DanmakuData) (output_filepath : String)
    (_provider_name : String) : Bool × Option (String × XmlOutput) :=
  if save_danmu_xml_call_kwargs.all (fun k => convert_json_to_xml_params.contains k) then
    match convert_json_to_xml (.list danmu_data.comments) 0 true with
    | some out => (true, some (output_filepath, out))
    | none => (false, none)
  else (false, none)

/-- The result dictionary of `DanmuDownloader.process_video_file`.
Keys that a branch of the source omits are modeled as `none`/empty. -/
structure ProcessResult where
  success : Bool
  message : String
  video_file : String
  downloaded_files : List (String × String × Nat)
  failed_sources : List String
  series_name : Option String
  episode : Option Nat
  danmu_count : Option Nat
deriving DecidableEq, Repr

def mkFailResult (msg fp : String) : ProcessResult :=
  { success := false, message := msg, video_file := fp,
    downloaded_files := [], failed_sources := [], series_name := none,
    episode := none, danmu_count := none }

def seasonValStr : Option Nat → String
  | some s => ⟨natDigits s⟩
  | none => "None"

/-- The body of the per-provider loop of `process_video_file`
(steps: match episode, download, compute the provider artifact path,
save the XML).  The `try/except` around the body catches the
`TypeError` of `_get_correct_danmu_filepath` and records `str(e)`. -/
def processProvider (svc : RemoteService) (info : VideoInfo)
    (video_filepath provider : String) (episodes : List EpisodeEntry) :
    Sum ((String × String × Nat) × (String × XmlOutput)) String :=
  match match_episode episodes info.episode with
  | none => Sum.inr (provider ++ ": 未找到对应集数")
  | some target =>
    match svc.danmaku target.episodeId with
    | none => Sum.inr (provider ++ ": 弹幕下载失败")
    | some dd =>
      match get_correct_danmu_filepath info provider video_filepath with
      | Except.error e => Sum.inr (provider ++ ": " ++ e.msg)
      | Except.ok path =>
        match save_danmu_xml dd path (danmuSourceSuffix provider) with
        | (true, some art) => Sum.inl ((provider, path, dd.count), art)
        | _ => Sum.inr (provider ++ ": XML保存失败")

/-- The provider loop, accumulating `downloaded_files`, `failed_sources`
and the artifacts actually written, in iteration order. -/
def runProviders (svc : RemoteService) (info : VideoInfo) (fp : String) :
    List (String × List EpisodeEntry) →
    List (String × String × Nat) × List String × List (String × XmlOutput)
  | [] => ([], [], [])
  | (prov, eps) :: rest =>
    let r := runProviders svc info fp rest
    match processProvider svc info fp prov eps with
    | Sum.inl (d, art) => (d :: r.1, r.2.1, art :: r.2.2)
    | Sum.inr f => (r.1, f :: r.2.1, r.2.2)

/-- `DanmuDownloader.process_video_file`, returning the result dict
together with the XML artifacts written to disk.  Step 2 of the source
(computing the default-source path and logging whether it exists) has
no effect on the result or the filesystem and is not modeled. -/
def process_video_file (svc : RemoteService) (video_filepath : String) :
    ProcessResult × List (String × XmlOutput) :=
  match parse_video_filename video_filepath none with
  | none => (mkFailResult "无法解析视频文件名" video_filepath, [])
  | some info =>
    match search_anime svc.library info.series_name info.season with
    | none =>
      (mkFailResult ("未找到匹配的动漫: " ++ info.series_name ++ " 第" ++
        seasonValStr info.season ++ "季") video_filepath, [])
    | some anime =>
      match get_episodes svc anime.animeId with
      | none => (mkFailResult "未找到分集信息" video_filepath, [])
      | some all_episodes =>
        let r := runProviders svc info video_filepath all_episodes
        let downloaded := r.1
        let failed := r.2.1
        let artifacts := r.2.2
        if !downloaded.isEmpty then
          let baseMsg := "成功下载 " ++ String.mk (natDigits downloaded.length) ++
            " 个弹幕源"
          let msg := if !failed.isEmpty then
              baseMsg ++ "，失败 " ++ String.mk (natDigits failed.length) ++ " 个源"
            else baseMsg
          ({ success := true, message := msg, video_file := video_filepath,
             downloaded_files := downloaded, failed_sources := failed,
             series_name := some info.series_name, episode := some info.episode,
             danmu_count := some (downloaded.map (fun d => d.2.2)).sum }, artifacts)
        else
          ({ success := false,
             message := "所有弹幕源下载失败: " ++ String.intercalate "; " failed,
             video_file := video_filepath, downloaded_files := [],
             failed_sources := failed, series_name := none, episode := none,
             danmu_count := none }, artifacts)

/-! ## ConcurrentFileProcessor (concurrent_processor.py) -/

/-- The attributes a `DanmuDownloader` instance actually has: the six
instance attributes set by `__init__` and the methods defined by the
class body.  No `process_video_file_sync` is among them. -/
def danmuDownloaderAttrs : List String :=
  ["__init__", "config", "danmu_client", "xml_converter", "video_parser",
   "danmu_sources", "default_source", "process_video_file", "_search_anime",
   "_get_episodes", "_match_episode", "_download_danmu", "_save_danmu_xml",
   "_get_correct_danmu_filepath"]

/-- Python attribute lookup on a `DanmuDownloader`: an unknown name
raises `AttributeError`. -/
def getattrDanmuDownloader (name : String) : Except PyErr Unit :=
  if danmuDownloaderAttrs.contains name then Except.ok ()
  else
    Except.error ⟨aposS ++ "DanmuDownloader" ++ aposS ++
      " object has no attribute " ++ aposS ++ name ++ aposS⟩

/-- `ConcurrentFileProcessor._process_video_sync`: it resolves the
attribute `process_video_file_sync` on the downloader and would call it;
the `except` clause converts any raised exception into the failure
dictionary.  `call` stands for whatever such a method would do if it
existed, which the result provably never depends on. -/
def process_video_sync (call : String → ProcessResult) (filepath : String) :
    ProcessResult :=
  match getattrDanmuDownloader "process_video_file_sync" with
  | Except.ok _ => call filepath
  | Except.error e => mkFailResult ("处理失败: " ++ e.msg) filepath

/-- `ConcurrentFileProcessor.RetryTask`. -/
structure RetryTask where
  filepath : String
  attempt : Nat
  max_retries : Nat
  retry_time : ℚ
  last_error : Option String
deriving DecidableEq, Repr

/-- `ConcurrentFileProcessor._schedule_retry`: an attempt beyond the
maximum is dropped with the terminal failure log and nothing is
enqueued; otherwise a `RetryTask` due after the retry delay is put on
the queue. -/
def schedule_retry (filepath : String) (attempt max_retries : Nat)
    (now retry_delay : ℚ) (err : Option String) : Option RetryTask :=
  if decide (attempt > max_retries) then none
  else some ⟨filepath, attempt, max_retries, now + retry_delay, err⟩

/-- Executed retry attempts for a file whose processing always fails,
starting from the first requeue.  The scheduler loop requeues a
not-yet-due task unchanged each tick and executes it once due, so an
enqueued task is executed exactly once; times therefore do not affect
which attempts run and the chain records the attempt numbers in
execution order.  After a failed execution,
`_process_retry_tasks_concurrently` requeues `attempt + 1` only when
`task.attempt < task.max_retries`.  Fuel is structural; `max_retries`
steps always suffice. -/
def retryChainAux (fp : String) : Nat → Nat → Nat → List Nat
  | 0, _, _ => []
  | fuel + 1, attempt, m =>
    match schedule_retry fp attempt m 0 1 none with
    | none => []
    | some t => t.attempt :: (if t.attempt < m then retryChainAux fp fuel (t.attempt + 1) m else [])

/-- All executed attempts for an always-failing file: the first attempt
run by `_process_single_file`, then — since its failure triggers
`_schedule_retry(filepath, 2, max_retries)` — the retry chain from
attempt 2. -/
def alwaysFailingAttempts (fp : String) (max_retries : Nat) : List Nat :=
  1 :: retryChainAux fp max_retries 2 max_retries

/-! ## SubtitleHandler event deduplication (watcher.py) -/

/-- `SubtitleHandler.recent_events`, a dict from event key to the time
it was recorded (seconds, modeled as rationals). -/
structure DedupState where
  recentEvents : List (String × ℚ)
deriving DecidableEq, Repr

/-- `f"{filepath}_{event_type}"`. -/
def eventKey (filepath eventType : String) : String :=
  filepath ++ "_" ++ eventType

/-- Delete every record older than five seconds (the opportunistic
prune at the start of `_should_process_event`). -/
def pruneEvents (re : List (String × ℚ)) (now : ℚ) : List (String × ℚ) :=
  re.filter (fun kv => !decide (now - kv.2 > 5))

def lookupEvent (re : List (String × ℚ)) (k : String) : Option ℚ :=
  (re.find? (fun kv => kv.1 == k)).map (fun kv => kv.2)

/-- Dict assignment `recent_events[key] = now`. -/
def recordEvent (re : List (String × ℚ)) (k : String) (now : ℚ) :
    List (String × ℚ) :=
  if re.any (fun kv => kv.1 == k) then
    re.map (fun kv => if kv.1 == k then (k, now) else kv)
  else re ++ [(k, now)]

/-- The kind-specific deduplication window: 0.8 s for `created`, 2.0 s
for moves and anything else. -/
def dedupWindow (eventType : String) : ℚ :=
  if eventType == "created" then 0.8 else 2.0

/-- `SubtitleHandler._should_process_event`: prune, then suppress a
repeat of the same key inside its window; a processed event is
recorded. -/
def should_process_event (st : DedupState) (filepath eventType : String)
    (now : ℚ) : Bool × DedupState :=
  let pruned := pruneEvents st.recentEvents now
  let key := eventKey filepath eventType
  match lookupEvent pruned key with
  | some last =>
    if decide (now - last < dedupWindow eventType) then (false, ⟨pruned⟩)
    else (true, ⟨recordEvent pruned key now⟩)
  | none => (true, ⟨recordEvent pruned key now⟩)

/-- Number of pipeline invocations over a sequence of timed events for
fixed path and kind (an event is forwarded exactly when
`_should_process_event` returns true). -/
def countInvocations (st : DedupState) (filepath eventType : String) :
    List ℚ → Nat
  | [] => 0
  | t :: ts =>
    let r := should_process_event st filepath eventType t
    (if r.1 then 1 else 0) + countInvocations r.2 filepath eventType ts

/-! ## Concrete environments used when settling the claims -/

/-- The mocked catalog of the end-to-end scenario: title `剧名`,
season 1, anime id 1; one source (`iqiyi`, id 10) whose episode list is
a single episode of index 1 (id 100) holding three comments. -/
def mockCatalogC1 : RemoteService :=
  { library := [⟨1, "剧名", 1⟩],
    sources := fun aid => if aid == 1 then [⟨10, "iqiyi"⟩] else [],
    episodes := fun sid => if sid == 10 then [⟨100, "第 1 集"⟩] else [],
    danmaku := fun eid =>
      if eid == 100 then
        some ⟨3, [PyVal.dict [("m", .str "一"), ("p", .str "1,1,25,16777215,0,0,0,1")],
                  PyVal.dict [("m", .str "二"), ("p", .str "2,1,25,16777215,0,0,0,2")],
                  PyVal.dict [("m", .str "三"), ("p", .str "3,1,25,16777215,0,0,0,3")]]⟩
      else none }

/-- A minimal remote service for the cache-behavior claim. -/
def svcC2 : RemoteService :=
  { library := [⟨1, "剧名", 1⟩],
    sources := fun _ => [⟨10, "iqiyi"⟩],
    episodes := fun _ => [],
    danmaku := fun _ => none }

/-- The URL `get_anime_sources` requests for anime id 1. -/
def sourcesUrlC2 : String :=
  "http://host/api/control/library/anime/1/sources"

/-- The parsed info of `某剧 第5集.mp4`: an episodic file carrying no
`SxxExx` marker, hence a `None` season. -/
def infoNoSeason : VideoInfo :=
  { series_name := "某剧", season := none, episode := 5, year := none,
    content_type := ContentType.tv_series, original_filename := "某剧 第5集",
    file_ext := ".mp4", file_dir := "" }

/-! # Theorems

Helper lemmas first, then one theorem per claim. -/

theorem splitCommaAux_ne_nil (acc cs : List Char) : splitCommaAux acc cs ≠ [] := by
  induction cs generalizing acc with
  | nil => simp [splitCommaAux]
  | cons c cs ih =>
    by_cases hc : (c == ',') = true
    · simp [splitCommaAux, hc]
    · simpa [splitCommaAux, hc] using ih (c :: acc)

theorem joinComma_splitCommaAux (cs : List Char) :
    ∀ acc, joinComma (splitCommaAux acc cs) = acc.reverse ++ cs := by
  induction cs with
  | nil => intro acc; simp [splitCommaAux, joinComma]
  | cons c cs ih =>
    intro acc
    by_cases hc : (c == ',') = true
    · have hcc : c = ',' := by simpa using hc
      obtain ⟨y, rest, hyr⟩ : ∃ y rest, splitCommaAux ([] : List Char) cs = y :: rest := by
        cases h : splitCommaAux ([] : List Char) cs with
        | nil => exact absurd h (splitCommaAux_ne_nil _ _)
        | cons y rest => exact ⟨y, rest, rfl⟩
      simp only [splitCommaAux, hc, if_true]
      rw [hyr, joinComma, ← hyr, ih []]
      simp [hcc]
    · have hsp : splitCommaAux acc (c :: cs) = splitCommaAux (c :: acc) cs := by
        simp [splitCommaAux, hc]
      rw [hsp, ih (c :: acc)]
      simp

/-- Python `','.join(s.split(','))` gives back `s`. -/
theorem joinComma_splitComma (cs : List Char) : joinComma (splitComma cs) = cs := by
  simpa using joinComma_splitCommaAux cs []

/-- C4: parse_video_filename applied to the name
`Name - S01E07 - 第 7 集.mp4` yields a tv_series result with
series_name `Name`, season 1 and episode 7; the third conjunct shows
the `第N集` pattern also occurs in the name, so the season captured in
the result witnesses that the `SxxExx` pattern was tried first in the
stated priority order. -/
theorem parse_sxxexx_priority_example :
    parse_video_filename "Name - S01E07 - 第 7 集.mp4" none =
      some { series_name := "Name", season := some 1, episode := 7, year := none,
             content_type := ContentType.tv_series,
             original_filename := "Name - S01E07 - 第 7 集", file_ext := ".mp4",
             file_dir := "" }
    ∧ extract_episode_info ("Name - S01E07 - 第 7 集".data) =
        some { season := some 1, episode := 7 }
    ∧ (findFirstA matchDiJi ("Name - S01E07 - 第 7 集".data)).isSome = true :=
  ⟨by decide, by decide, by decide⟩

/-- C5: the packed-attribute repair of `generate_dandan_xml`: a
three-field core gets the default font size `25` inserted as third
field, a four-field core with a blank or non-numeric third field gets
it overwritten with `25` (bracketed suffix fields are carried
unchanged), and every packed string whose core needs no repair passes
through unchanged. -/
theorem packed_attribute_repair :
    repairPAttr ("12.3,1,16777215".data) = "12.3,1,25,16777215".data
    ∧ repairPAttr ("12.3,1,,16777215".data) = "12.3,1,25,16777215".data
    ∧ repairPAttr ("12.3,1,16777215,[like:1]".data) = "12.3,1,25,16777215,[like:1]".data
    ∧ ∀ p : List Char,
        repair_core_parts ((splitComma p).takeWhile (fun part => !isBracketedField part)) =
          (splitComma p).takeWhile (fun part => !isBracketedField part) →
        repairPAttr p = p := by
  refine ⟨by decide, by decide, by decide, ?_⟩
  intro p h
  simp only [repairPAttr]
  rw [h, List.takeWhile_append_dropWhile, joinComma_splitComma]

theorem packed_attribute_repair_witness :
    repair_core_parts ((splitComma ("1,1,25,16777215,0,0,0,1".data)).takeWhile
        (fun part => !isBracketedField part)) =
      (splitComma ("1,1,25,16777215,0,0,0,1".data)).takeWhile
        (fun part => !isBracketedField part)
    ∧ repairPAttr ("1,1,25,16777215,0,0,0,1".data) = "1,1,25,16777215,0,0,0,1".data :=
  ⟨by decide, packed_attribute_repair.2.2.2 ("1,1,25,16777215,0,0,0,1".data) (by decide)⟩

/-- C6 counterexample: the dandan layout, the one the pipeline uses
(`_save_danmu_xml` always passes `use_dandan_format=True`), produces an
output whose header carries the record count but no provider name: for
a one-record batch the pipeline provider string `IqiyiID` appears
nowhere in the output while the record count does. -/
theorem dandan_header_lacks_provider :
    containsSeq ("IqiyiID".data)
      ((generate_dandan_xml [⟨"1,1,25,16777215,0,0,0,1", "好"⟩]).data) = false
    ∧ containsSeq ("<maxlimit>1</maxlimit>".data)
      ((generate_dandan_xml [⟨"1,1,25,16777215,0,0,0,1", "好"⟩]).data) = true :=
  ⟨by decide, by decide⟩

/-- C6 amended: every dandan header contains the record count (as the
`maxlimit` line), and only the alternative ElementTree layout
(`generate_xml_from_comments`) carries both the provider name
(`sourceprovider`) and the record count (`datasize`). -/
theorem header_record_count_fields :
    (∀ comments : List NormComment,
       ("  <maxlimit>" ++ String.mk (natDigits comments.length) ++ "</maxlimit>")
         ∈ dandanHeaderLines comments.length)
    ∧ (∀ (comments : List NormComment) (episode_id : Nat) (provider chat : String),
       (⟨"sourceprovider", provider⟩ : XmlElem)
           ∈ (generate_xml_from_comments comments episode_id provider chat).headerFields
       ∧ (⟨"datasize", String.mk (natDigits comments.length)⟩ : XmlElem)
           ∈ (generate_xml_from_comments comments episode_id provider chat).headerFields) := by
  constructor
  · intro comments
    simp [dandanHeaderLines]
  · intro comments episode_id provider chat
    constructor <;> simp [generate_xml_from_comments]

/-- An `if text is empty then drop else keep` step keeps only records
with non-empty text. -/
theorem if_empty_text_eq_some (t p : String) (r : NormComment)
    (h : (if t == "" then none
          else some ({ p := p, m := t } : NormComment)) = some r) :
    ¬(r.m = "") := by
  by_cases hc : (t == "") = true
  · rw [if_pos hc] at h
    exact Option.noConfusion h
  · rw [if_neg hc] at h
    cases h
    simpa using hc

/-- C7 counterexample: the invariant fails for the array and scalar
shapes.  A batch holding the scalar `""` normalizes to a record with
empty text (not dropped), and so does an array comment whose trailing
text element is empty. -/
theorem normalization_keeps_empty_text :
    normalize_comments [PyVal.str ""] =
      [{ p := "0,1,25,16777215,0,0,0,0", m := "" }]
    ∧ normalize_comments [PyVal.list [PyVal.int 5, PyVal.str ""]] =
      [{ p := "5,,25,16777215,0,0,0,0", m := "" }] :=
  ⟨by decide, by decide⟩

/-- C7 amended: only the dict shape enforces the non-empty-text
invariant — a dict comment that fails to yield non-empty text is
dropped silently without failing the rest of the batch — while the
array and scalar shapes can produce records with empty text. -/
theorem dict_normalization_text_invariant :
    (∀ (d : List (String × PyVal)) (r : NormComment),
        normalize_single_comment d = some r → ¬(r.m = ""))
    ∧ normalize_comments
        [PyVal.dict [("m", PyVal.str "")],
         PyVal.dict [("m", PyVal.str "好"), ("p", PyVal.str "1,1,25,0,0,0,0,2")]] =
      [{ p := "1,1,25,0,0,0,0,2", m := "好" }] := by
  constructor
  · intro d r h
    unfold normalize_single_comment at h
    exact if_empty_text_eq_some _ _ _ h
  · decide

theorem dict_normalization_text_invariant_witness :
    normalize_single_comment [("m", PyVal.str "好")] =
      some { p := "0,1,25,16777215,0,0,0,0", m := "好" }
    ∧ ¬(({ p := "0,1,25,16777215,0,0,0,0", m := "好" } : NormComment).m = "") :=
  ⟨by decide,
   dict_normalization_text_invariant.1 [("m", PyVal.str "好")]
     { p := "0,1,25,16777215,0,0,0,0", m := "好" } (by decide)⟩

/-- C1: evaluation of `process_video_file` on the exact end-to-end
scenario of the claim.  The run fails: `_save_danmu_xml` passes the
keyword argument `provider_name` to `convert_json_to_xml`, which does
not declare it (fourth conjunct), so the call raises `TypeError`, every
source is recorded as `XML保存失败`, no artifact is written, and the
result is `success=False` — not the claimed success with one XML
artifact.  The last conjunct shows the converter itself, called
legally on the same three comments, would have produced the dandan
content with record count 3. -/
theorem e2e_mocked_catalog_fails :
    (process_video_file mockCatalogC1 "剧名 - S01E01 - 第 1 集.mp4").1.success = false
    ∧ (process_video_file mockCatalogC1 "剧名 - S01E01 - 第 1 集.mp4").2 = []
    ∧ (process_video_file mockCatalogC1 "剧名 - S01E01 - 第 1 集.mp4").1.failed_sources =
        ["iqiyi: XML保存失败"]
    ∧ (save_danmu_xml_call_kwargs.all
        (fun k => convert_json_to_xml_params.contains k)) = false
    ∧ ((convert_json_to_xml
          (PyVal.list
            [PyVal.dict [("m", .str "一"), ("p", .str "1,1,25,16777215,0,0,0,1")],
             PyVal.dict [("m", .str "二"), ("p", .str "2,1,25,16777215,0,0,0,2")],
             PyVal.dict [("m", .str "三"), ("p", .str "3,1,25,16777215,0,0,0,3")]])
          0 true).map
        (fun out =>
          match out with
          | XmlOutput.dandan s => containsSeq ("<maxlimit>3</maxlimit>".data) s.data
          | XmlOutput.elemTree _ => false)) = some true :=
  ⟨by decide, by decide, by decide, by decide, by decide⟩

/-- C2: neither `get_anime_sources` nor `get_library_list` ever reads
or writes the caches initialized by `__init__` — every call appends a
fresh HTTP request, so two `listSources(id)` calls inside the
ten-minute TTL window perform two underlying requests, not one, and the
keyed sources cache stays empty. -/
theorem sources_requests_never_cached :
    (∀ (svc : RemoteService) (base : String) (st : ClientState) (id : Nat),
        (get_anime_sources svc base st id).2.requestLog.length =
          st.requestLog.length + 1
        ∧ (get_anime_sources svc base st id).2.sourcesCache = st.sourcesCache
        ∧ (get_library_list svc base st).2.requestLog.length =
          st.requestLog.length + 1
        ∧ (get_library_list svc base st).2.libraryCacheData = st.libraryCacheData)
    ∧ (get_anime_sources svcC2 "http://host"
         (get_anime_sources svcC2 "http://host" initClientState 1).2 1).2.requestLog =
       [sourcesUrlC2, sourcesUrlC2]
    ∧ (get_anime_sources svcC2 "http://host"
         (get_anime_sources svcC2 "http://host" initClientState 1).2 1).2.sourcesCache =
       ([] : List (Nat × (List SourceEntry × Nat)))
    ∧ SOURCES_CACHE_TTL = 600 := by
  refine ⟨?_, by decide, by decide, rfl⟩
  intro svc base st id
  refine ⟨?_, rfl, ?_, rfl⟩ <;> simp [get_anime_sources, get_library_list]

theorem retryChainAux_eq (fp : String) :
    ∀ (fuel a m : Nat), m + 1 - a ≤ fuel →
      retryChainAux fp fuel a m = List.range' a (m + 1 - a) := by
  intro fuel
  induction fuel with
  | zero =>
    intro a m h
    have h0 : m + 1 - a = 0 := Nat.le_zero.mp h
    simp [retryChainAux, h0]
  | succ fuel ih =>
    intro a m h
    by_cases hgt : m < a
    · have h0 : m + 1 - a = 0 := by omega
      have hd : decide (a > m) = true := by simpa using hgt
      simp [retryChainAux, schedule_retry, hd, h0]
    · have hd : decide (a > m) = false := by
        simp only [decide_eq_false_iff_not]
        omega
      by_cases hlt : a < m
      · have h1 : m + 1 - a = (m - a) + 1 := by omega
        have h2 : m + 1 - (a + 1) = m - a := by omega
        rw [h1, List.range'_succ]
        simp only [retryChainAux, schedule_retry, hd, Bool.false_eq_true,
          if_false, hlt, if_true]
        rw [ih (a + 1) m (by omega), h2]
      · have ham : ¬ (a < m) := hlt
        have h1 : m + 1 - a = 1 := by omega
        rw [h1, List.range'_one]
        simp [retryChainAux, schedule_retry, hd, ham]

/-- C3: a path whose processing always fails is attempted exactly
`max_retries` times in total: the attempts executed are `1, 2, ...,
max_retries`, strictly increasing and all within the bound, after
which the chain ends (nothing further is ever scheduled); and
`_schedule_retry` never enqueues a task whose attempt exceeds
`max_retries`. -/
theorem retry_bound (fp : String) (m : Nat) (h : 1 ≤ m) :
    alwaysFailingAttempts fp m = List.range' 1 m
    ∧ (alwaysFailingAttempts fp m).length = m
    ∧ List.Pairwise (fun a b => a < b) (alwaysFailingAttempts fp m)
    ∧ (∀ a ∈ alwaysFailingAttempts fp m, 1 ≤ a ∧ a ≤ m)
    ∧ (∀ (fp2 : String) (a mr : Nat) (now d : ℚ) (err : Option String)
        (t : RetryTask),
        schedule_retry fp2 a mr now d err = some t → t.attempt = a ∧ a ≤ mr) := by
  have hmain : alwaysFailingAttempts fp m = List.range' 1 m := by
    unfold alwaysFailingAttempts
    rw [retryChainAux_eq fp m 2 m (by omega)]
    have h2 : m + 1 - 2 = m - 1 := by omega
    have h3 : m = (m - 1) + 1 := by omega
    rw [h2]
    conv_rhs => rw [h3, List.range'_succ]
  refine ⟨hmain, ?_, ?_, ?_, ?_⟩
  · rw [hmain, List.length_range']
  · rw [hmain]
    exact List.pairwise_lt_range' 1 m
  · intro a ha
    rw [hmain, List.mem_range'] at ha
    obtain ⟨i, hi, hai⟩ := ha
    omega
  · intro fp2 a mr now d err t ht
    unfold schedule_retry at ht
    by_cases hgt : decide (a > mr) = true
    · rw [if_pos hgt] at ht
      exact Option.noConfusion ht
    · rw [if_neg hgt] at ht
      cases ht
      exact ⟨rfl, by simpa using hgt⟩

theorem retry_bound_witness :
    1 ≤ 3 ∧ alwaysFailingAttempts "/v/f.mp4" 3 = List.range' 1 3 :=
  ⟨by decide, (retry_bound "/v/f.mp4" 3 (by decide)).1⟩

theorem dedupWindow_le_five (k : String) : dedupWindow k ≤ 5 := by
  unfold dedupWindow
  split <;> norm_num

/-- Every entry of the dict after `recent_events[key] = t` that carries
`key` carries the value `t`. -/
theorem recordEvent_key_val {re : List (String × ℚ)} {k : String} {t : ℚ} :
    ∀ kv ∈ recordEvent re k t, kv.1 = k → kv.2 = t := by
  intro kv hkv hk
  unfold recordEvent at hkv
  by_cases hany : re.any (fun kv => kv.1 == k) = true
  · rw [if_pos hany, List.mem_map] at hkv
    obtain ⟨kv0, _hkv0, heq⟩ := hkv
    by_cases h0 : (kv0.1 == k) = true
    · rw [if_pos h0] at heq
      rw [← heq]
    · rw [if_neg h0] at heq
      subst heq
      exact absurd (by simpa using hk) (by simpa using h0)
  · rw [if_neg hany, List.mem_append] at hkv
    rcases hkv with hmem | hmem
    · rw [List.any_eq_true] at hany
      exact absurd ⟨kv, hmem, by simpa using hk⟩ hany
    · rw [List.mem_singleton] at hmem
      rw [hmem]

theorem recordEvent_mem_self (re : List (String × ℚ)) (k : String) (t : ℚ) :
    (k, t) ∈ recordEvent re k t := by
  unfold recordEvent
  by_cases hany : re.any (fun kv => kv.1 == k) = true
  · rw [if_pos hany, List.mem_map]
    rw [List.any_eq_true] at hany
    obtain ⟨kv0, h0, hp⟩ := hany
    exact ⟨kv0, h0, by rw [if_pos hp]⟩
  · rw [if_neg hany]
    simp

/-- The recorded key survives the next prune when it is young enough,
and looks up to its recorded time. -/
theorem lookup_recordEvent_pruned (re : List (String × ℚ)) (k : String)
    (t₁ t₂ : ℚ) (h : ¬(t₂ - t₁ > 5)) :
    lookupEvent (pruneEvents (recordEvent re k t₁) t₂) k = some t₁ := by
  have hmem : (k, t₁) ∈ pruneEvents (recordEvent re k t₁) t₂ := by
    rw [pruneEvents, List.mem_filter]
    exact ⟨recordEvent_mem_self re k t₁, by simpa using h⟩
  unfold lookupEvent
  have hsome : ((pruneEvents (recordEvent re k t₁) t₂).find?
      (fun kv => kv.1 == k)).isSome := by
    rw [List.find?_isSome]
    exact ⟨(k, t₁), hmem, by simp⟩
  obtain ⟨kv, hkv⟩ := Option.isSome_iff_exists.mp hsome
  rw [hkv]
  have h1 := List.find?_some hkv
  have h2 := List.mem_of_find?_eq_some hkv
  have h3 : kv ∈ recordEvent re k t₁ := (List.mem_filter.mp h2).1
  have h4 : kv.2 = t₁ := recordEvent_key_val kv h3 (by simpa using h1)
  simp [h4]

/-- When `_should_process_event` lets an event through, the resulting
dict is the pruned one with the event freshly recorded. -/
theorem state_after_true {st : DedupState} {fp k : String} {t : ℚ}
    (h : (should_process_event st fp k t).1 = true) :
    (should_process_event st fp k t).2.recentEvents =
      recordEvent (pruneEvents st.recentEvents t) (eventKey fp k) t := by
  unfold should_process_event at h ⊢
  cases hl : lookupEvent (pruneEvents st.recentEvents t) (eventKey fp k) with
  | none => simp [hl]
  | some last =>
    simp only [hl] at h ⊢
    by_cases hc : decide (t - last < dedupWindow k) = true
    · rw [if_pos hc] at h
      exact absurd h (by simp)
    · rw [if_neg hc]

/-- An event whose key looks up to a time inside its window is
rejected. -/
theorem spe_false_of_lookup {s : DedupState} {fp k : String} {t last : ℚ}
    (hl : lookupEvent (pruneEvents s.recentEvents t) (eventKey fp k) = some last)
    (hc : t - last < dedupWindow k) :
    (should_process_event s fp k t).1 = false := by
  unfold should_process_event
  simp only [hl]
  simp [hc]

/-- Suppression: a second event with the same key inside its window is
rejected. -/
theorem suppress_second {st : DedupState} {fp k : String} {t₁ t₂ : ℚ}
    (h1 : (should_process_event st fp k t₁).1 = true)
    (_h2 : t₁ ≤ t₂) (h3 : t₂ - t₁ < dedupWindow k) :
    (should_process_event (should_process_event st fp k t₁).2 fp k t₂).1 = false := by
  have hwin : dedupWindow k ≤ 5 := dedupWindow_le_five k
  have hst := state_after_true h1
  have hprune : ¬(t₂ - t₁ > 5) := by linarith
  have hlk : lookupEvent
      (pruneEvents (should_process_event st fp k t₁).2.recentEvents t₂)
      (eventKey fp k) = some t₁ := by
    rw [hst]
    exact lookup_recordEvent_pruned _ _ _ _ hprune
  exact spe_false_of_lookup hlk h3

/-- No surviving entry is older than five seconds relative to the
evaluation instant. -/
theorem after_event_entries_fresh (st : DedupState) (fp k : String) (t : ℚ) :
    ∀ kv ∈ (should_process_event st fp k t).2.recentEvents, ¬(t - kv.2 > 5) := by
  have hpruned : ∀ kv ∈ pruneEvents st.recentEvents t, ¬(t - kv.2 > 5) := by
    intro kv hkv
    have := (List.mem_filter.mp hkv).2
    simpa using this
  have hrec : ∀ kv ∈ recordEvent (pruneEvents st.recentEvents t) (eventKey fp k) t,
      ¬(t - kv.2 > 5) := by
    intro kv hkv
    unfold recordEvent at hkv
    by_cases hany : (pruneEvents st.recentEvents t).any (fun kv => kv.1 == eventKey fp k) = true
    · rw [if_pos hany, List.mem_map] at hkv
      obtain ⟨kv0, hkv0, heq⟩ := hkv
      by_cases h0 : (kv0.1 == eventKey fp k) = true
      · rw [if_pos h0] at heq
        rw [← heq]
        simp
      · rw [if_neg h0] at heq
        rw [← heq]
        exact hpruned kv0 hkv0
    · rw [if_neg hany, List.mem_append] at hkv
      rcases hkv with hmem | hmem
      · exact hpruned kv hmem
      · rw [List.mem_singleton] at hmem
        rw [hmem]
        simp
  intro kv hkv
  unfold should_process_event at hkv
  cases hl : lookupEvent (pruneEvents st.recentEvents t) (eventKey fp k) with
  | none =>
    simp only [hl] at hkv
    exact hrec kv hkv
  | some last =>
    simp only [hl] at hkv
    by_cases hc : decide (t - last < dedupWindow k) = true
    · rw [if_pos hc] at hkv
      exact hpruned kv hkv
    · rw [if_neg hc] at hkv
      exact hrec kv hkv

/-- C8: two notifications with the same deduplication key
(path, event-kind), the second inside the kind-specific window (0.8 s
for create, 2.0 s otherwise), yield exactly one pipeline invocation;
and whenever an event is evaluated, no surviving record is older than
five seconds. -/
theorem debounce_two_events_one_invocation (st : DedupState) (fp kind : String)
    (t₁ t₂ : ℚ)
    (h1 : (should_process_event st fp kind t₁).1 = true)
    (h2 : t₁ ≤ t₂) (h3 : t₂ - t₁ < dedupWindow kind) :
    countInvocations st fp kind [t₁, t₂] = 1
    ∧ (∀ kv ∈ (should_process_event st fp kind t₁).2.recentEvents,
        ¬(t₁ - kv.2 > 5)) := by
  constructor
  · have hsupp := suppress_second h1 h2 h3
    simp [countInvocations, h1, hsupp]
  · exact after_event_entries_fresh st fp kind t₁

theorem debounce_two_events_one_invocation_witness :
    (should_process_event ⟨[]⟩ "/v/a.mp4" "created" 0).1 = true
    ∧ countInvocations ⟨[]⟩ "/v/a.mp4" "created" [0, 0] = 1 :=
  ⟨rfl,
   (debounce_two_events_one_invocation ⟨[]⟩ "/v/a.mp4" "created" 0 0 rfl
     (le_refl 0) (by norm_num [dedupWindow])).1⟩

/-- C9: `_process_video_sync` resolves the attribute
`process_video_file_sync`, which `DanmuDownloader` does not define, so
whatever such a method would have done (`call`), the `AttributeError`
is caught and converted into the failure dictionary: every file going
through the pool fails its first attempt; the failure then feeds
`_schedule_retry` with attempt 2, entering the retry path. -/
theorem process_video_sync_always_fails (call : String → ProcessResult)
    (fp : String) :
    (process_video_sync call fp).success = false
    ∧ (process_video_sync call fp).message =
        "处理失败: " ++ aposS ++ "DanmuDownloader" ++ aposS ++
          " object has no attribute " ++ aposS ++ "process_video_file_sync" ++ aposS
    ∧ (process_video_sync call fp).video_file = fp
    ∧ (schedule_retry fp 2 3 0 1 none).map RetryTask.attempt = some 2 :=
  ⟨rfl, rfl, rfl, rfl⟩

/-- With a `None` season the per-provider body can never succeed: every
branch ends in the failure side (episode mismatch, download failure, or
the `TypeError` raised when `_get_correct_danmu_filepath` formats the
season). -/
theorem processProvider_isRight_of_no_season (svc : RemoteService)
    (info : VideoInfo) (fp prov : String) (eps : List EpisodeEntry)
    (hs : info.season = none) :
    (processProvider svc info fp prov eps).isRight = true := by
  unfold processProvider
  rcases hme : match_episode eps info.episode with _ | target
  · simp [hme]
  · rcases hdk : svc.danmaku target.episodeId with _ | dd
    · simp [hme, hdk]
    · have hfmt : get_correct_danmu_filepath info prov fp =
          Except.error ⟨"unsupported format string passed to NoneType.__format__"⟩ := by
        unfold get_correct_danmu_filepath
        rw [hs]
        rfl
      simp [hme, hdk, hfmt]

/-- The provider loop with a `None` season: no downloads, no artifacts,
one failure entry per provider. -/
theorem runProviders_no_season (svc : RemoteService) (info : VideoInfo)
    (fp : String) (hs : info.season = none) :
    ∀ l : List (String × List EpisodeEntry),
      (runProviders svc info fp l).1 = []
      ∧ (runProviders svc info fp l).2.1.length = l.length
      ∧ (runProviders svc info fp l).2.2 = [] := by
  intro l
  induction l with
  | nil => exact ⟨rfl, rfl, rfl⟩
  | cons pe rest ih =>
    obtain ⟨prov, eps⟩ := pe
    have hr := processProvider_isRight_of_no_season svc info fp prov eps hs
    rcases hp : processProvider svc info fp prov eps with x | msg
    · rw [hp] at hr
      exact absurd hr (by simp)
    · simp only [runProviders, hp]
      exact ⟨ih.1, by simpa using ih.2.1, ih.2.2⟩

/-- C10: a parsed tv_series video with no `SxxExx` marker carries a
`None` season (shown on the concrete file `某剧 第5集.mp4`), and for
such an info record per-provider processing never succeeds against any
catalog: no downloads, no artifacts, every provider in
`failed_sources`, and the overall run for that file returns
`success=False`. -/
theorem no_sxxexx_season_never_succeeds :
    parse_video_filename "某剧 第5集.mp4" none = some infoNoSeason
    ∧ infoNoSeason.season = none
    ∧ (∀ (svc : RemoteService) (fp : String) (info : VideoInfo),
        info.season = none →
        ∀ l : List (String × List EpisodeEntry),
          (runProviders svc info fp l).1 = []
          ∧ (runProviders svc info fp l).2.1.length = l.length
          ∧ (runProviders svc info fp l).2.2 = [])
    ∧ (∀ svc : RemoteService,
        (process_video_file svc "某剧 第5集.mp4").1.success = false
        ∧ (process_video_file svc "某剧 第5集.mp4").2 = []) := by
  have hparse : parse_video_filename "某剧 第5集.mp4" none = some infoNoSeason := by
    decide
  refine ⟨hparse, rfl, ?_, ?_⟩
  · intro svc fp info hs l
    exact runProviders_no_season svc info fp hs l
  · intro svc
    rcases hsa : search_anime svc.library infoNoSeason.series_name infoNoSeason.season
      with _ | anime
    · simp [process_video_file, hparse, hsa, mkFailResult]
    · rcases hge : get_episodes svc anime.animeId with _ | all_episodes
      · simp [process_video_file, hparse, hsa, hge, mkFailResult]
      · have hrun := runProviders_no_season svc infoNoSeason "某剧 第5集.mp4" rfl
          all_episodes
        simp [process_video_file, hparse, hsa, hge, hrun.1, hrun.2.2]

theorem no_sxxexx_season_never_succeeds_witness :
    infoNoSeason.season = none
    ∧ (runProviders svcC2 infoNoSeason "某剧 第5集.mp4"
        [("iqiyi", [⟨100, "第 5 集"⟩])]).1 = [] :=
  ⟨rfl,
   (no_sxxexx_season_never_succeeds.2.2.1 svcC2 "某剧 第5集.mp4" infoNoSeason rfl
     [("iqiyi", [⟨100, "第 5 集"⟩])]).1⟩

end SubtitleSpec
